import Mathlib

/-!
Shallow embedding of `src/ssgui.hpp` (ssgui, a small image-based GUI layer
for SFML).  C++ `float` arithmetic is idealized as exact rational
arithmetic (`ℚ`); machine-width effects that the embedded code actually
exercises (the unsigned 32-bit wraparound in `h/w - 1`, the
`static_cast<char>` truncation in LineEdit, integer mouse coordinates) are
modelled explicitly.  Assertion failures and null-texture dereferences are
modelled by `Option`: a call returns `none` exactly when the C++ call would
abort.  Per-state callbacks are modelled by the list of states whose
callback an operation invokes (the source callback table holds opaque
closures; `call()` invokes the entry for the state current at call time, so
that list determines exactly which bound callback fires and how often).
-/

namespace SSGui

/-- Enumeration `ss::State`: Idle = 0, Hover = 1, Hit = 2 (Hit is the
"pressed" state of the spec). -/
inductive State where
  | Idle
  | Hover
  | Hit
deriving DecidableEq, Repr

/-- Enumeration `ss::SliderType`. -/
inductive SliderType where
  | Horizontal
  | Vertical
deriving DecidableEq, Repr

/-- Compile-time config constant `KnobDragSensitivity = 0.01f`. -/
def KnobDragSensitivity : ℚ := 1 / 100

/-- Compile-time config constant `KnobScrollSensitivity = 0.1f`. -/
def KnobScrollSensitivity : ℚ := 1 / 10

/-- Compile-time config constant `KnobMaxMouseWheelScrollDelta = 0.1f`. -/
def KnobMaxMouseWheelScrollDelta : ℚ := 1 / 10

/-- Compile-time config constant `KnobMaxMouseMoveDelta = 0.1f`. -/
def KnobMaxMouseMoveDelta : ℚ := 1 / 10

/-- The clamp `fmax(-1.f, fmin(v, 1.f))` applied to knob and slider values. -/
def clampValue (v : ℚ) : ℚ := max (-1) (min v 1)

/-- A 2-component float vector (`sf::Vector2f`). -/
structure Vec2 where
  x : ℚ
  y : ℚ
deriving DecidableEq, Repr

/-- Mouse buttons (`sf::Mouse::Button`). -/
inductive MouseButton where
  | Left
  | Right
  | Middle
  | XButton1
  | XButton2
deriving DecidableEq, Repr

/-- Mouse wheel axes (`sf::Mouse::Wheel`). -/
inductive WheelAxis where
  | VerticalWheel
  | HorizontalWheel
deriving DecidableEq, Repr

/-- Keyboard keys (`sf::Keyboard::Key`); only Backspace is distinguished by
the embedded code. -/
inductive Key where
  | Backspace
  | OtherKey (code : ℕ)
deriving DecidableEq, Repr

/-- The input events the embedded code inspects (`sf::Event`).  `sf::Event`
is a C++ union; `Knob::handleEvent` reads `event.mouseMove.y` also for
events whose active member is not `mouseMove`, which yields whatever bytes
overlap that member.  Each non-move constructor therefore carries an
`aliasedY` payload: the value such a union-punning read would observe. -/
inductive Event where
  | MouseButtonPressed (button : MouseButton) (aliasedY : ℚ)
  | MouseButtonReleased (button : MouseButton) (aliasedY : ℚ)
  | MouseWheelScrolled (wheel : WheelAxis) (delta : ℚ) (aliasedY : ℚ)
  | MouseMoved (y : ℚ)
  | TextEntered (unicode : ℕ) (aliasedY : ℚ)
  | KeyPressed (code : Key) (aliasedY : ℚ)
deriving DecidableEq, Repr

/-- The value a read of `event.mouseMove.y` yields: the actual coordinate
for a mouse-move event, the aliased union bytes otherwise. -/
def Event.mouseMoveY : Event → ℚ
  | .MouseButtonPressed _ a => a
  | .MouseButtonReleased _ a => a
  | .MouseWheelScrolled _ _ a => a
  | .MouseMoved y => y
  | .TextEntered _ a => a
  | .KeyPressed _ a => a

/-- True for the two mouse-button event kinds, the only events
`Clickable::handleEvent` reacts to. -/
def Event.isButtonEvent : Event → Bool
  | .MouseButtonPressed _ _ => true
  | .MouseButtonReleased _ _ => true
  | _ => false

/-- An axis-aligned float rectangle (`sf::FloatRect`). -/
structure FloatRect where
  left : ℚ
  top : ℚ
  width : ℚ
  height : ℚ
deriving DecidableEq, Repr

/-- `sf::Rect<float>::contains`: normalizes against negative sizes with
min/max and tests half-open membership. -/
def FloatRect.containsPoint (r : FloatRect) (px py : ℚ) : Bool :=
  decide (min r.left (r.left + r.width) ≤ px) &&
  decide (px < max r.left (r.left + r.width)) &&
  decide (min r.top (r.top + r.height) ≤ py) &&
  decide (py < max r.top (r.top + r.height))

/-- `sf::CircleShape`: the radius plus its `sf::Transformable` data.
Rotation is never used by the embedded code and is omitted. -/
structure CircleShape where
  mRadius : ℚ
  position : Vec2
  scaleFactors : Vec2
  origin : Vec2
deriving DecidableEq, Repr

/-- `sf::RectangleShape`: the size plus its `sf::Transformable` data. -/
structure RectangleShape where
  size : Vec2
  position : Vec2
  scaleFactors : Vec2
  origin : Vec2
deriving DecidableEq, Repr

/-- A texture rectangle (`sf::IntRect`). -/
structure IntRect where
  left : ℤ
  top : ℤ
  width : ℤ
  height : ℤ
deriving DecidableEq, Repr

/-- `sf::Sprite`: `texture` is `none` when no texture is bound (a null
`getTexture()` pointer); `some (w, h)` records the bound texture size,
which is all the embedded code reads from it. -/
structure Sprite where
  texture : Option (ℕ × ℕ)
  textureRect : IntRect
  position : Vec2
  scaleFactors : Vec2
  origin : Vec2
deriving DecidableEq, Repr

/-- A default-constructed `sf::Sprite`: no texture, zero texture rect,
identity transform. -/
def Sprite.default : Sprite :=
  ⟨none, ⟨0, 0, 0, 0⟩, ⟨0, 0⟩, ⟨1, 1⟩, ⟨0, 0⟩⟩

/-- With no rotation, an SFML transform with the given position, scale and
origin maps a local point `q` to `position + scaleFactors * (q - origin)`. -/
def transformPoint (position scaleFactors origin : Vec2) (q : Vec2) : Vec2 :=
  ⟨position.x + scaleFactors.x * (q.x - origin.x),
   position.y + scaleFactors.y * (q.y - origin.y)⟩

/-- `sf::Transform::transformRect` for a rotation-free transform: the
bounding box of the transformed corners (with axis-aligned scaling the
extreme corners are the two opposite ones). -/
def transformBounds (position scaleFactors origin : Vec2) (r : FloatRect) : FloatRect :=
  let a := transformPoint position scaleFactors origin ⟨r.left, r.top⟩
  let b := transformPoint position scaleFactors origin ⟨r.left + r.width, r.top + r.height⟩
  ⟨min a.x b.x, min a.y b.y, max a.x b.x - min a.x b.x, max a.y b.y - min a.y b.y⟩

/-- The operations the generic `ss` code needs from a collision-shape
type: the `sf::Transformable` setters, `getLocalBounds`, and the
point-containment test `ss::contains`.  The default `contains` body is the
primary template (`getGlobalBounds().contains(point)`); the circle
instance overrides it like the explicit specialization in the source. -/
class ShapeAPI (T : Type) where
  setPosition : T → Vec2 → T
  setScale : T → Vec2 → T
  setOrigin : T → Vec2 → T
  getLocalBounds : T → FloatRect
  getGlobalBounds : T → FloatRect
  contains : T → ℤ → ℤ → Bool :=
    fun shape px py => (getGlobalBounds shape).containsPoint (px : ℚ) (py : ℚ)

/-- `static_cast<unsigned>` of a nonnegative float truncates toward zero
(a negative argument would be undefined behaviour in C++; the widths and
heights this is applied to are nonnegative). -/
def floatToUnsigned (q : ℚ) : ℕ := (⌊q⌋).toNat

/-- The components of the origin `ss::centerOrigin` installs: the local
bounds offset plus half the truncated extent, `unsigned` division by 2
included. -/
def centerOriginPoint (rect : FloatRect) : Vec2 :=
  ⟨rect.left + ((floatToUnsigned rect.width / 2 : ℕ) : ℚ),
   rect.top + ((floatToUnsigned rect.height / 2 : ℕ) : ℚ)⟩

/-- `ss::centerOrigin`: sets the origin to the center of the local bounds
(with the unsigned truncation of the source). -/
def centerOrigin {T : Type} [ShapeAPI T] (object : T) : T :=
  ShapeAPI.setOrigin object (centerOriginPoint (ShapeAPI.getLocalBounds object))

/-- Executable form of `ss::contains<sf::CircleShape>`.  The source tests
`sqrt((px-cx)^2 + (py-cy)^2) < getRadius()`; since a square root is
nonnegative, over the reals that comparison holds exactly when the radius
is positive and the squared distance is below the squared radius, which is
the form used here to stay inside `ℚ`.  Theorem `spec_C10` proves this
equivalence against the real square root. -/
def CircleShape.containsPoint (shape : CircleShape) (px py : ℤ) : Bool :=
  decide (0 < shape.mRadius) &&
  decide (((px : ℚ) - shape.position.x) ^ 2 + ((py : ℚ) - shape.position.y) ^ 2
            < shape.mRadius ^ 2)

instance : ShapeAPI CircleShape where
  setPosition shape p := { shape with position := p }
  setScale shape s := { shape with scaleFactors := s }
  setOrigin shape o := { shape with origin := o }
  getLocalBounds shape := ⟨0, 0, 2 * shape.mRadius, 2 * shape.mRadius⟩
  getGlobalBounds shape :=
    transformBounds shape.position shape.scaleFactors shape.origin
      ⟨0, 0, 2 * shape.mRadius, 2 * shape.mRadius⟩
  contains := CircleShape.containsPoint

instance : ShapeAPI RectangleShape where
  setPosition shape p := { shape with position := p }
  setScale shape s := { shape with scaleFactors := s }
  setOrigin shape o := { shape with origin := o }
  getLocalBounds shape := ⟨0, 0, shape.size.x, shape.size.y⟩
  getGlobalBounds shape :=
    transformBounds shape.position shape.scaleFactors shape.origin
      ⟨0, 0, shape.size.x, shape.size.y⟩

/-- `sf::Sprite` local bounds: the absolute texture-rect extents. -/
instance : ShapeAPI Sprite where
  setPosition sprite p := { sprite with position := p }
  setScale sprite s := { sprite with scaleFactors := s }
  setOrigin sprite o := { sprite with origin := o }
  getLocalBounds sprite :=
    ⟨0, 0, (|sprite.textureRect.width| : ℤ), (|sprite.textureRect.height| : ℤ)⟩
  getGlobalBounds sprite :=
    transformBounds sprite.position sprite.scaleFactors sprite.origin
      ⟨0, 0, (|sprite.textureRect.width| : ℤ), (|sprite.textureRect.height| : ℤ)⟩

/-- `ss::Clickable<T>`: the collision shape, the current state, the freeze
flag, and the widget transform inherited from `sf::Transformable`
(`position` and `scaleFactors` are the transform of the widget itself, as
returned by `getPosition()` and `getScale()`).  The callback table is not
stored: operations instead report the states whose callback they invoke. -/
structure Clickable (T : Type) where
  mCollisionShape : T
  mState : State
  mFreezed : Bool
  position : Vec2
  scaleFactors : Vec2
deriving DecidableEq, Repr

/-- The `Clickable` constructor: Idle, unfrozen, with the default
`sf::Transformable` transform (position 0, scale 1). -/
def Clickable.construct {T : Type} (collisionShape : T) : Clickable T :=
  ⟨collisionShape, .Idle, false, ⟨0, 0⟩, ⟨1, 1⟩⟩

/-- `Clickable::freeze`: sets the state to the argument and raises the
freeze flag. -/
def Clickable.freeze {T : Type} (c : Clickable T) (state : State) : Clickable T :=
  { c with mState := state, mFreezed := true }

/-- `Clickable::unfreeze`: clears the freeze flag. -/
def Clickable.unfreeze {T : Type} (c : Clickable T) : Clickable T :=
  { c with mFreezed := false }

/-- `Clickable::handleEvent`: returns the mutated widget and the states
whose callback the call fires (via `call()`, which runs the callback of
the state just installed). -/
def Clickable.handleEvent {T : Type} (c : Clickable T) (event : Event) :
    Clickable T × List State :=
  if c.mFreezed then (c, [])
  else
    match event with
    | .MouseButtonPressed button _ =>
        if c.mState = .Hover ∧ button = .Left then
          ({ c with mState := .Hit }, [.Hit])
        else (c, [])
    | .MouseButtonReleased button _ =>
        if c.mState = .Hit ∧ button = .Left then
          ({ c with mState := .Hover }, [.Hover])
        else (c, [])
    | _ => (c, [])

/-- The unconditional first phase of `Clickable::update`: reposition and
rescale the collision shape from the widget transform and re-center its
origin. -/
def Clickable.updateShape {T : Type} [ShapeAPI T] (c : Clickable T) : Clickable T :=
  let shape :=
    centerOrigin
      (ShapeAPI.setScale (ShapeAPI.setPosition c.mCollisionShape c.position)
        c.scaleFactors)
  { c with mCollisionShape := shape }

/-- `Clickable::update`: the shape phase always runs; the hover/idle
transition logic is skipped when frozen.  `mouse` is the integer pointer
position `sf::Mouse::getPosition(window)`. -/
def Clickable.update {T : Type} [ShapeAPI T] (c : Clickable T) (mouse : ℤ × ℤ) :
    Clickable T × List State :=
  let c1 := c.updateShape
  if c1.mFreezed then (c1, [])
  else if c1.mState = .Idle ∧
      ShapeAPI.contains c1.mCollisionShape mouse.1 mouse.2 = true then
    ({ c1 with mState := .Hover }, [.Hover])
  else if c1.mState = .Hover ∧
      ¬ ShapeAPI.contains c1.mCollisionShape mouse.1 mouse.2 = true then
    ({ c1 with mState := .Idle }, [.Idle])
  else (c1, [])

/-- C `roundf`: rounds to the nearest integer, halves away from zero. -/
def roundHalfAway (x : ℚ) : ℤ :=
  if 0 ≤ x then ⌊x + 1 / 2⌋ else -⌊-x + 1 / 2⌋

/-- The expression `h / w - 1` of the texture-rect computations: `w` and
`h` are 32-bit unsigned texture dimensions, the division is C++ unsigned
division and the subtraction wraps modulo `2^32`.  (`w = 0` would be
division by zero in C++; every use below is under a positive-width
hypothesis.) -/
def frameCountMinusOne (w h : ℕ) : ℕ := (h / w + (2 ^ 32 - 1)) % 2 ^ 32

/-- `ss::Knob`: its `Clickable<sf::CircleShape>` base, the spritesheet
sprite, the continuous value and the remembered pointer Y.  The C++
constructor initializes `mSprite` and `mPreviousMouseY` but leaves
`mValue` uninitialized. -/
structure Knob where
  click : Clickable CircleShape
  mSprite : Sprite
  mValue : ℚ
  mPreviousMouseY : ℚ
deriving DecidableEq, Repr

/-- The `Knob` constructor.  `uninitializedValue` models the indeterminate
contents of the never-initialized member `mValue`. -/
def Knob.construct (collisionShape : CircleShape) (sprite : Sprite)
    (uninitializedValue : ℚ) : Knob :=
  ⟨Clickable.construct collisionShape, sprite, uninitializedValue, 0⟩

/-- `Knob::value`. -/
def Knob.value (k : Knob) : ℚ := k.mValue

/-- `Knob::handleEvent`: delegate to `Clickable::handleEvent`, then nudge
the value on a vertical scroll while Hover, nudge it by the pointer-Y
delta on any non-press event while Hit, and clamp to [-1, 1]. -/
def Knob.handleEvent (k : Knob) (event : Event) : Knob × List State :=
  let (c, fired) := k.click.handleEvent event
  let v1 :=
    match event with
    | .MouseWheelScrolled .VerticalWheel delta _ =>
        if c.mState = .Hover then
          k.mValue + min (delta * KnobScrollSensitivity) KnobMaxMouseWheelScrollDelta
        else k.mValue
    | _ => k.mValue
  let v2 :=
    match event with
    | .MouseButtonPressed _ _ => v1
    | _ =>
        if c.mState = .Hit then
          v1 + min ((k.mPreviousMouseY - event.mouseMoveY) * KnobDragSensitivity)
                 KnobMaxMouseMoveDelta
        else v1
  ({ k with click := c, mValue := clampValue v2 }, fired)

/-- `Knob::textureRect`: `none` models the failing
`assert(mSprite.getTexture())`; otherwise one square `w`-by-`w` frame of a
single-column spritesheet, with top offset `roundf((h/w - 1)*(mValue+1)/2)*w`. -/
def Knob.textureRect (k : Knob) : Option IntRect :=
  match k.mSprite.texture with
  | none => none
  | some (w, h) =>
      let top : ℤ :=
        roundHalfAway (((frameCountMinusOne w h : ℕ) : ℚ) * (k.mValue + 1) / 2) * (w : ℤ)
      some ⟨0, top, (w : ℤ), (w : ℤ)⟩

/-- `Knob::update`: delegate to `Clickable::update`, clamp the value, set
the sprite texture rect (asserting a bound texture), track the widget
transform with the sprite, and remember the pointer Y. -/
def Knob.update (k : Knob) (mouse : ℤ × ℤ) : Option (Knob × List State) :=
  let (c, fired) := k.click.update mouse
  let v := clampValue k.mValue
  match Knob.textureRect { k with mValue := v } with
  | none => none
  | some rect =>
      let sprite :=
        centerOrigin
          (ShapeAPI.setScale
            (ShapeAPI.setPosition { k.mSprite with textureRect := rect } c.position)
            c.scaleFactors)
      some ({ k with click := c, mValue := v, mSprite := sprite, mPreviousMouseY := (mouse.2 : ℚ) }, fired)

/-- `Knob::setValue`: `none` models the failing
`assert(value <= 1.0 and value >= 0.0)`; otherwise remap [0, 1] to
[-1, 1] via `(value - 0.5) * 2`. -/
def Knob.setValue (k : Knob) (value : ℚ) : Option Knob :=
  if value ≤ 1 ∧ 0 ≤ value then some { k with mValue := (value - 1 / 2) * 2 }
  else none

/-- `ss::Slider`: its `Clickable<sf::RectangleShape>` base, the
initialized flag, the value, the sprite and the orientation. -/
structure Slider where
  click : Clickable RectangleShape
  mInitialized : Bool
  mValue : ℚ
  mSprite : Sprite
  mType : SliderType
deriving DecidableEq, Repr

/-- The default `Slider` constructor: a 1-by-1 placeholder collision shape
and `mInitialized = false`.  The C++ default constructor leaves `mValue`
and `mType` uninitialized (only `mSprite` is default-constructed);
the indeterminate contents are modelled by the explicit arguments. -/
def Slider.constructDefault (uninitializedValue : ℚ)
    (uninitializedType : SliderType) : Slider :=
  ⟨Clickable.construct ⟨⟨1, 1⟩, ⟨0, 0⟩, ⟨1, 1⟩, ⟨0, 0⟩⟩, false,
    uninitializedValue, Sprite.default, uninitializedType⟩

/-- The main `Slider` constructor: initialized, value 0. -/
def Slider.construct (collisionShape : RectangleShape) (sprite : Sprite)
    (type : SliderType) : Slider :=
  ⟨Clickable.construct collisionShape, true, 0, sprite, type⟩

/-- `Slider::update`: `none` models the failing `assert(mInitialized)` and
the dereference of an unbound sprite texture.  The source lines
`Clickable::setPosition(getPosition())` and `Clickable::setScale(getScale())`
write the widget transform to itself and are identities here.  While the
state is Hit the value is recomputed from the pointer coordinate (in `ℚ`
a division by a zero size or scale yields 0 where C++ floats would give an
infinity; no theorem below depends on that case), then clamped, then the
texture rect is selected exactly as in `Knob::textureRect`. -/
def Slider.update (s : Slider) (mouse : ℤ × ℤ) : Option (Slider × List State) :=
  if s.mInitialized = true then
    let (c, fired) := s.click.update mouse
    let sprite1 :=
      centerOrigin
        (ShapeAPI.setScale (ShapeAPI.setPosition s.mSprite c.position) c.scaleFactors)
    let v1 :=
      match s.mType with
      | .Horizontal =>
          if c.mState = .Hit then
            (((mouse.1 : ℚ) - c.position.x) / c.mCollisionShape.size.x) * 2
              / c.scaleFactors.x
          else s.mValue
      | .Vertical =>
          if c.mState = .Hit then
            ((c.position.y - (mouse.2 : ℚ)) / c.mCollisionShape.size.y) * 2
              / c.scaleFactors.y
          else s.mValue
    let v2 := clampValue v1
    match s.mSprite.texture with
    | none => none
    | some (w, h) =>
        let top : ℤ :=
          roundHalfAway (((frameCountMinusOne w h : ℕ) : ℚ) * (v2 + 1) / 2) * (w : ℤ)
        let sprite2 := { sprite1 with textureRect := (⟨0, top, (w : ℤ), (w : ℤ)⟩ : IntRect) }
        some ({ s with click := c, mValue := v2, mSprite := sprite2 }, fired)
  else none

/-- `Slider::value`: `none` models the failing `assert(mInitialized)`. -/
def Slider.value (s : Slider) : Option ℚ :=
  if s.mInitialized = true then some s.mValue else none

/-- `Slider::setValue`: asserts `mInitialized`, then stores the argument
with no clamping. -/
def Slider.setValue (s : Slider) (value : ℚ) : Option Slider :=
  if s.mInitialized = true then some { s with mValue := value } else none

/-- `Slider::draw`: only its `assert(mInitialized)` is modelled (drawing
itself has no widget-state effect). -/
def Slider.draw (s : Slider) : Option Unit :=
  if s.mInitialized = true then some () else none

/-- The character test of `LineEdit::handleEvent`:
`static_cast<char>(unicode)` for a 32-bit code unit with the common 8-bit
signed `char`: keep the low byte, values 128..255 becoming negative. -/
def toSignedChar (u : ℕ) : ℤ :=
  if u % 256 < 128 then ((u % 256 : ℕ) : ℤ) else ((u % 256 : ℕ) : ℤ) - 256

/-- `ss::LineEdit`: its `Clickable<sf::RectangleShape>` base, the
initialized flag and the text buffer (the code-point sequence of the
`sf::String` inside `mText`; the transform of the `sf::Text` visual never
feeds back into any observable modelled here). -/
structure LineEdit where
  click : Clickable RectangleShape
  mInitialized : Bool
  mText : List ℕ
deriving DecidableEq, Repr

/-- The default `LineEdit` constructor: 1-by-1 placeholder shape,
`mInitialized = false`, empty default-constructed text. -/
def LineEdit.constructDefault : LineEdit :=
  ⟨Clickable.construct ⟨⟨1, 1⟩, ⟨0, 0⟩, ⟨1, 1⟩, ⟨0, 0⟩⟩, false, []⟩

/-- The main `LineEdit` constructor. -/
def LineEdit.construct (collisionShape : RectangleShape) (text : List ℕ) : LineEdit :=
  ⟨Clickable.construct collisionShape, true, text⟩

/-- `LineEdit::handleEvent`: `none` models the failing
`assert(mInitialized)`.  Delegates to `Clickable::handleEvent`, then while
the state is Hover appends a text-entered code unit whose `char` cast is
at least 32 and erases the last character on Backspace when nonempty. -/
def LineEdit.handleEvent (le : LineEdit) (event : Event) :
    Option (LineEdit × List State) :=
  if le.mInitialized = true then
    let (c, fired) := le.click.handleEvent event
    let text1 :=
      match event with
      | .TextEntered unicode _ =>
          if c.mState = .Hover ∧ 32 ≤ toSignedChar unicode then le.mText ++ [unicode]
          else le.mText
      | _ => le.mText
    let text2 :=
      match event with
      | .KeyPressed .Backspace _ =>
          if c.mState = .Hover ∧ text1.length > 0 then text1.dropLast else text1
      | _ => text1
    some ({ le with click := c, mText := text2 }, fired)
  else none

/-- `LineEdit::update`: asserts `mInitialized`, delegates to
`Clickable::update` (the self-assignments of the widget transform are
identities), then repositions the text visual, which has no modelled
observable. -/
def LineEdit.update (le : LineEdit) (mouse : ℤ × ℤ) :
    Option (LineEdit × List State) :=
  if le.mInitialized = true then
    let (c, fired) := le.click.update mouse
    some ({ le with click := c }, fired)
  else none

/-- `LineEdit::setString`: asserts `mInitialized`. -/
def LineEdit.setString (le : LineEdit) (text : List ℕ) : Option LineEdit :=
  if le.mInitialized = true then some { le with mText := text } else none

/-- `LineEdit::string`: asserts `mInitialized`. -/
def LineEdit.string (le : LineEdit) : Option (List ℕ) :=
  if le.mInitialized = true then some le.mText else none

/-- `LineEdit::draw`: only its `assert(mInitialized)` is modelled. -/
def LineEdit.draw (le : LineEdit) : Option Unit :=
  if le.mInitialized = true then some () else none

/-- One step of the generic `Clickable` interface used by the sequence
claims: an input event or one per-frame update at a pointer position. -/
inductive ClickOp where
  | handleEvent (event : Event)
  | update (mouse : ℤ × ℤ)
deriving DecidableEq, Repr

/-- Run one `ClickOp` on a `Clickable`, discarding the fired callbacks. -/
def Clickable.runOp {T : Type} [ShapeAPI T] (c : Clickable T) : ClickOp → Clickable T
  | .handleEvent e => (c.handleEvent e).1
  | .update m => (c.update m).1

/-- Run a sequence of `ClickOp`s from left to right. -/
def Clickable.runOps {T : Type} [ShapeAPI T] (c : Clickable T) :
    List ClickOp → Clickable T
  | [] => c
  | op :: ops => (c.runOp op).runOps ops

/-- One mutating call of the `Knob` public interface. -/
inductive KnobOp where
  | handleEvent (event : Event)
  | update (mouse : ℤ × ℤ)
  | setValue (value : ℚ)
deriving DecidableEq, Repr

/-- Run one `KnobOp`; `none` when the C++ call would abort. -/
def Knob.runOp (k : Knob) : KnobOp → Option Knob
  | .handleEvent e => some (k.handleEvent e).1
  | .update m => (k.update m).map Prod.fst
  | .setValue v => k.setValue v

/-- Run a sequence of `KnobOp`s from left to right. -/
def Knob.runOps (k : Knob) : List KnobOp → Option Knob
  | [] => some k
  | op :: ops => (k.runOp op).bind (fun k1 => k1.runOps ops)

/-- One mutating call of the interleavings claim C4 quantifies over: a
per-frame update at an arbitrary pointer position, or an external
`setValue`. -/
inductive SliderOp where
  | update (mouse : ℤ × ℤ)
  | setValue (value : ℚ)
deriving DecidableEq, Repr

/-- Run one `SliderOp`; `none` when the C++ call would abort. -/
def Slider.runOp (s : Slider) : SliderOp → Option Slider
  | .update m => (s.update m).map Prod.fst
  | .setValue v => s.setValue v

/-- Run a sequence of `SliderOp`s from left to right. -/
def Slider.runOps (s : Slider) : List SliderOp → Option Slider
  | [] => some s
  | op :: ops => (s.runOp op).bind (fun s1 => s1.runOps ops)

/-- The value evolution of a frozen non-Hit slider: `setValue` stores its
argument, `update` clamps the stored value and ignores the pointer. -/
def sliderFrozenValue (v : ℚ) : List SliderOp → ℚ
  | [] => v
  | .update _ :: ops => sliderFrozenValue (clampValue v) ops
  | .setValue q :: ops => sliderFrozenValue q ops

/-- `Slider::freeze` as inherited from `Clickable`. -/
def Slider.freeze (s : Slider) (state : State) : Slider :=
  { s with click := s.click.freeze state }

/-- One call of the full `Slider` public interface, including the
inherited `Clickable` methods; used to settle claim C7, which quantifies
over every operation of a default-constructed placeholder.  Observer
calls return the widget unchanged when their assertion passes. -/
inductive SliderCall where
  | handleEvent (event : Event)
  | update (mouse : ℤ × ℤ)
  | valueObs
  | setValue (value : ℚ)
  | draw
  | freeze (state : State)
  | unfreeze
  | bindCallback (state : State)
  | stateObs
  | freezedObs
  | collisionShapeObs
deriving DecidableEq, Repr

/-- Run one `SliderCall`; `none` exactly when the C++ call would fail an
assertion (or dereference an unbound texture, for `update`).  The
inherited `Clickable` methods (`handleEvent`, `freeze`, `unfreeze`,
`bind` and the observers) contain no `assert(mInitialized)` in the
source. -/
def Slider.runCall (s : Slider) : SliderCall → Option Slider
  | .handleEvent e => some { s with click := (s.click.handleEvent e).1 }
  | .update m => (s.update m).map Prod.fst
  | .valueObs => (s.value).map (fun _ => s)
  | .setValue v => s.setValue v
  | .draw => (s.draw).map (fun _ => s)
  | .freeze st => some (s.freeze st)
  | .unfreeze => some { s with click := s.click.unfreeze }
  | .bindCallback _ => some s
  | .stateObs => some s
  | .freezedObs => some s
  | .collisionShapeObs => some s

/-- The pure next-state function of the unfrozen `Clickable::update`
transition logic, as a function of the current state and of whether the
pointer is inside the recomputed collision shape. -/
def unfrozenNextState : State → Bool → State
  | .Idle, true => .Hover
  | .Idle, false => .Idle
  | .Hover, true => .Hover
  | .Hover, false => .Idle
  | .Hit, _ => .Hit

/-- The callbacks the unfrozen `Clickable::update` transition logic fires,
as a function of the current state and the containment test. -/
def unfrozenFired : State → Bool → List State
  | .Idle, true => [.Hover]
  | .Idle, false => []
  | .Hover, true => []
  | .Hover, false => [.Idle]
  | .Hit, _ => []

/-- Adjacency of interaction states: a step is adjacent when it keeps the
state or moves along Idle-Hover or Hover-Hit; in particular it never moves
directly between Idle and Hit. -/
def adjacentStep (a b : State) : Prop :=
  a = b ∨ (a = .Idle ∧ b = .Hover) ∨ (a = .Hover ∧ b = .Idle) ∨
    (a = .Hover ∧ b = .Hit) ∨ (a = .Hit ∧ b = .Hover)

/-- The exact one-step transition relation claim C2 states for an
unfrozen `Clickable`: the primary-button press and release transitions
with their single callback, the ignored press and release cases, the
inertness of non-primary buttons and of non-button events at this layer,
and the hover tracking of `update`, which never leaves Hit. -/
def UnfrozenStepSpec {T : Type} [ShapeAPI T] (c : Clickable T) (y : ℚ)
    (mouse : ℤ × ℤ) : Prop :=
  (c.mState = .Hover →
    c.handleEvent (.MouseButtonPressed .Left y) = ({ c with mState := .Hit }, [.Hit])) ∧
  (c.mState = .Hit →
    c.handleEvent (.MouseButtonReleased .Left y) = ({ c with mState := .Hover }, [.Hover])) ∧
  (c.mState = .Idle ∨ c.mState = .Hit →
    c.handleEvent (.MouseButtonPressed .Left y) = (c, [])) ∧
  (c.mState = .Idle ∨ c.mState = .Hover →
    c.handleEvent (.MouseButtonReleased .Left y) = (c, [])) ∧
  (∀ b : MouseButton, b ≠ .Left →
    c.handleEvent (.MouseButtonPressed b y) = (c, []) ∧
    c.handleEvent (.MouseButtonReleased b y) = (c, [])) ∧
  (∀ e : Event, e.isButtonEvent = false → c.handleEvent e = (c, [])) ∧
  (c.mState = .Idle →
    ShapeAPI.contains (c.updateShape).mCollisionShape mouse.1 mouse.2 = true →
    (c.update mouse).1.mState = .Hover ∧ (c.update mouse).2 = [.Hover]) ∧
  (c.mState = .Idle →
    ShapeAPI.contains (c.updateShape).mCollisionShape mouse.1 mouse.2 = false →
    (c.update mouse).1.mState = .Idle ∧ (c.update mouse).2 = []) ∧
  (c.mState = .Hover →
    ShapeAPI.contains (c.updateShape).mCollisionShape mouse.1 mouse.2 = false →
    (c.update mouse).1.mState = .Idle ∧ (c.update mouse).2 = [.Idle]) ∧
  (c.mState = .Hover →
    ShapeAPI.contains (c.updateShape).mCollisionShape mouse.1 mouse.2 = true →
    (c.update mouse).1.mState = .Hover ∧ (c.update mouse).2 = []) ∧
  (c.mState = .Hit →
    (c.update mouse).1.mState = .Hit ∧ (c.update mouse).2 = [])

/-- What claim C4 can truthfully say of a frozen non-Hit slider: over any
interleaving of updates and external `setValue` calls the value follows
`sliderFrozenValue` (so the pointer never influences it) and the reported
state never moves. -/
def FrozenSliderSpec (s : Slider) (ops : List SliderOp) : Prop :=
  ∀ s' : Slider, Slider.runOps s ops = some s' →
    s'.mValue = sliderFrozenValue s.mValue ops ∧ s'.click.mState = s.click.mState

/-- A concrete circle collision shape (radius 5 at the origin). -/
def circA : CircleShape := ⟨5, ⟨0, 0⟩, ⟨1, 1⟩, ⟨0, 0⟩⟩

/-- A concrete freshly constructed `Clickable` over `circA`. -/
def clickC : Clickable CircleShape := Clickable.construct circA

/-- A concrete 10-by-10 rectangle collision shape at the origin. -/
def rectB : RectangleShape := ⟨⟨10, 10⟩, ⟨0, 0⟩, ⟨1, 1⟩, ⟨0, 0⟩⟩

/-- A concrete sprite with a bound 1-by-1 texture. -/
def spriteB : Sprite := { Sprite.default with texture := some (1, 1) }

/-- A concrete initialized horizontal slider. -/
def sliderA : Slider := Slider.construct rectB spriteB .Horizontal

/-- `sliderA` frozen in the Hit state (`freeze` accepts any state). -/
def sliderF : Slider := sliderA.freeze .Hit

/-- `sliderA` frozen in the Idle state. -/
def sliderW : Slider := sliderA.freeze .Idle

/-- A concrete knob whose spritesheet is a bound 4-by-12 texture: three
square frames of side 4.  Its (uninitialized) value is taken to be 0. -/
def knobEx : Knob :=
  Knob.construct circA { Sprite.default with texture := some (4, 12) } 0

/-- A concrete initialized `LineEdit` whose state-machine state is Hover. -/
def lineEditHover : LineEdit :=
  { LineEdit.construct rectB [] with
      click := { Clickable.construct rectB with mState := .Hover } }

/-! Helper lemmas about the generic state machine. -/

theorem updateShape_mState {T : Type} [ShapeAPI T] (c : Clickable T) :
    (c.updateShape).mState = c.mState := rfl

theorem updateShape_mFreezed {T : Type} [ShapeAPI T] (c : Clickable T) :
    (c.updateShape).mFreezed = c.mFreezed := rfl

theorem updateShape_position {T : Type} [ShapeAPI T] (c : Clickable T) :
    (c.updateShape).position = c.position := rfl

theorem updateShape_scaleFactors {T : Type} [ShapeAPI T] (c : Clickable T) :
    (c.updateShape).scaleFactors = c.scaleFactors := rfl

theorem handleEvent_frozen {T : Type} (c : Clickable T) (e : Event)
    (h : c.mFreezed = true) : c.handleEvent e = (c, []) := by
  simp [Clickable.handleEvent, h]

theorem update_frozen {T : Type} [ShapeAPI T] (c : Clickable T) (m : ℤ × ℤ)
    (h : c.mFreezed = true) : c.update m = (c.updateShape, []) := by
  have h1 : (c.updateShape).mFreezed = true := h
  simp [Clickable.update, h1]

theorem handleEvent_mFreezed {T : Type} (c : Clickable T) (e : Event) :
    (c.handleEvent e).1.mFreezed = c.mFreezed := by
  unfold Clickable.handleEvent
  split
  · rfl
  · cases e <;> dsimp only <;> (try split) <;> rfl

theorem handleEvent_mCollisionShape {T : Type} (c : Clickable T) (e : Event) :
    (c.handleEvent e).1.mCollisionShape = c.mCollisionShape := by
  unfold Clickable.handleEvent
  split
  · rfl
  · cases e <;> dsimp only <;> (try split) <;> rfl

theorem handleEvent_position {T : Type} (c : Clickable T) (e : Event) :
    (c.handleEvent e).1.position = c.position := by
  unfold Clickable.handleEvent
  split
  · rfl
  · cases e <;> dsimp only <;> (try split) <;> rfl

theorem handleEvent_scaleFactors {T : Type} (c : Clickable T) (e : Event) :
    (c.handleEvent e).1.scaleFactors = c.scaleFactors := by
  unfold Clickable.handleEvent
  split
  · rfl
  · cases e <;> dsimp only <;> (try split) <;> rfl

theorem handleEvent_state_cases {T : Type} (c : Clickable T) (e : Event) :
    (c.handleEvent e).1.mState = c.mState ∨
      (c.mState = .Hover ∧ (c.handleEvent e).1.mState = .Hit) ∨
      (c.mState = .Hit ∧ (c.handleEvent e).1.mState = .Hover) := by
  unfold Clickable.handleEvent
  split
  · exact Or.inl rfl
  · cases e
    case MouseButtonPressed b y =>
      dsimp only
      split
      · next hcond => exact Or.inr (Or.inl ⟨hcond.1, rfl⟩)
      · exact Or.inl rfl
    case MouseButtonReleased b y =>
      dsimp only
      split
      · next hcond => exact Or.inr (Or.inr ⟨hcond.1, rfl⟩)
      · exact Or.inl rfl
    all_goals exact Or.inl rfl

theorem update_shape_phase {T : Type} [ShapeAPI T] (c : Clickable T) (m : ℤ × ℤ) :
    (c.update m).1.mCollisionShape = (c.updateShape).mCollisionShape := by
  unfold Clickable.update
  dsimp only
  split
  · rfl
  · split
    · rfl
    · split <;> rfl

theorem update_mFreezed {T : Type} [ShapeAPI T] (c : Clickable T) (m : ℤ × ℤ) :
    (c.update m).1.mFreezed = c.mFreezed := by
  unfold Clickable.update
  dsimp only
  split
  · exact updateShape_mFreezed c
  · split
    · exact updateShape_mFreezed c
    · split <;> exact updateShape_mFreezed c

theorem update_position {T : Type} [ShapeAPI T] (c : Clickable T) (m : ℤ × ℤ) :
    (c.update m).1.position = c.position := by
  unfold Clickable.update
  dsimp only
  split
  · rfl
  · split
    · rfl
    · split <;> rfl

theorem update_scaleFactors {T : Type} [ShapeAPI T] (c : Clickable T) (m : ℤ × ℤ) :
    (c.update m).1.scaleFactors = c.scaleFactors := by
  unfold Clickable.update
  dsimp only
  split
  · rfl
  · split
    · rfl
    · split <;> rfl

theorem update_state_unfrozen {T : Type} [ShapeAPI T] (c : Clickable T) (m : ℤ × ℤ)
    (h : c.mFreezed = false) :
    (c.update m).1.mState =
      unfrozenNextState c.mState
        (ShapeAPI.contains (c.updateShape).mCollisionShape m.1 m.2) := by
  have h1 : (c.updateShape).mFreezed = false := h
  by_cases hc : ShapeAPI.contains (c.updateShape).mCollisionShape m.1 m.2 = true
  · cases hs : c.mState <;>
      simp [Clickable.update, h1, hc, hs, unfrozenNextState, updateShape_mState]
  · simp only [Bool.not_eq_true] at hc
    cases hs : c.mState <;>
      simp [Clickable.update, h1, hc, hs, unfrozenNextState, updateShape_mState]

theorem update_state_frozen {T : Type} [ShapeAPI T] (c : Clickable T) (m : ℤ × ℤ)
    (h : c.mFreezed = true) : (c.update m).1.mState = c.mState := by
  rw [update_frozen c m h]
  exact updateShape_mState c

theorem runOp_frozen_invariants {T : Type} [ShapeAPI T] (c : Clickable T)
    (op : ClickOp) (h : c.mFreezed = true) :
    (c.runOp op).mState = c.mState ∧ (c.runOp op).mFreezed = true := by
  cases op with
  | handleEvent e => rw [Clickable.runOp, handleEvent_frozen c e h]; exact ⟨rfl, h⟩
  | update m => rw [Clickable.runOp, update_frozen c m h]; exact ⟨rfl, h⟩

theorem runOps_frozen_invariants {T : Type} [ShapeAPI T] (c : Clickable T)
    (ops : List ClickOp) (h : c.mFreezed = true) :
    (c.runOps ops).mState = c.mState ∧ (c.runOps ops).mFreezed = true := by
  induction ops generalizing c with
  | nil => exact ⟨rfl, h⟩
  | cons op ops ih =>
      obtain ⟨h1, h2⟩ := runOp_frozen_invariants c op h
      obtain ⟨h3, h4⟩ := ih (c.runOp op) h2
      exact ⟨by rw [Clickable.runOps, h3, h1], by rw [Clickable.runOps, h4]⟩

theorem clampValue_mem (v : ℚ) : -1 ≤ clampValue v ∧ clampValue v ≤ 1 := by
  unfold clampValue
  exact ⟨le_max_left _ _, max_le (by norm_num) (min_le_right _ _)⟩

theorem update_fired_unfrozen {T : Type} [ShapeAPI T] (c : Clickable T) (m : ℤ × ℤ)
    (h : c.mFreezed = false) :
    (c.update m).2 =
      unfrozenFired c.mState
        (ShapeAPI.contains (c.updateShape).mCollisionShape m.1 m.2) := by
  have h1 : (c.updateShape).mFreezed = false := h
  by_cases hc : ShapeAPI.contains (c.updateShape).mCollisionShape m.1 m.2 = true
  · cases hs : c.mState <;>
      simp [Clickable.update, h1, hc, hs, unfrozenFired, updateShape_mState]
  · simp only [Bool.not_eq_true] at hc
    cases hs : c.mState <;>
      simp [Clickable.update, h1, hc, hs, unfrozenFired, updateShape_mState]

theorem unfreeze_mState {T : Type} (c : Clickable T) :
    (c.unfreeze).mState = c.mState := rfl

/-- Claim C2: for every unfrozen `Clickable`, the state-transition
relation is exactly the one listed: a primary press while Hover moves to
Hit firing exactly the Hit callback; a primary release while Hit moves to
Hover firing exactly the Hover callback; presses while Idle or Hit and
releases while Idle or Hover change nothing and fire nothing (as do
non-primary buttons and non-button events at this layer); `update`
moves Idle to Hover when the pointer is inside the recomputed shape and
Hover to Idle when it is outside, firing the entered-state callback once,
and never moves the state out of Hit. -/
theorem spec_C2 {T : Type} [ShapeAPI T] (c : Clickable T) (y : ℚ) (mouse : ℤ × ℤ)
    (hfree : c.mFreezed = false) : UnfrozenStepSpec c y mouse := by
  refine ⟨?_, ?_, ?_, ?_, ?_, ?_, ?_, ?_, ?_, ?_, ?_⟩
  · intro h
    simp [Clickable.handleEvent, hfree, h]
  · intro h
    simp [Clickable.handleEvent, hfree, h]
  · rintro (h | h) <;> simp [Clickable.handleEvent, hfree, h]
  · rintro (h | h) <;> simp [Clickable.handleEvent, hfree, h]
  · intro b hb
    constructor <;> simp [Clickable.handleEvent, hfree, hb]
  · intro e he
    cases e <;> simp_all [Clickable.handleEvent, Event.isButtonEvent, hfree]
  · intro h hc
    rw [update_state_unfrozen c mouse hfree, update_fired_unfrozen c mouse hfree, h, hc]
    exact ⟨rfl, rfl⟩
  · intro h hc
    rw [update_state_unfrozen c mouse hfree, update_fired_unfrozen c mouse hfree, h, hc]
    exact ⟨rfl, rfl⟩
  · intro h hc
    rw [update_state_unfrozen c mouse hfree, update_fired_unfrozen c mouse hfree, h, hc]
    exact ⟨rfl, rfl⟩
  · intro h hc
    rw [update_state_unfrozen c mouse hfree, update_fired_unfrozen c mouse hfree, h, hc]
    exact ⟨rfl, rfl⟩
  · intro h
    rw [update_state_unfrozen c mouse hfree, update_fired_unfrozen c mouse hfree, h]
    exact ⟨rfl, rfl⟩

/-- Witness for C2: the one-step relation instantiated at a concrete
freshly constructed circle-shaped widget. -/
theorem spec_C2_witness : UnfrozenStepSpec clickC 0 (1, 1) :=
  spec_C2 clickC 0 (1, 1) rfl

/-- Claim C3: after `freeze(S)` every sequence of `handleEvent` and
`update` calls leaves the reported state (and the freeze flag) at S; after
a subsequent `unfreeze()` the state is still S and the next `update`
computes the normal unfrozen transition from S. -/
theorem spec_C3 {T : Type} [ShapeAPI T] (c : Clickable T) (s : State)
    (ops : List ClickOp) (mouse : ℤ × ℤ) :
    ((c.freeze s).runOps ops).mState = s ∧
    ((c.freeze s).runOps ops).mFreezed = true ∧
    (((c.freeze s).runOps ops).unfreeze).mState = s ∧
    ((((c.freeze s).runOps ops).unfreeze).update mouse).1.mState =
      unfrozenNextState s
        (ShapeAPI.contains
          ((((c.freeze s).runOps ops).unfreeze).updateShape).mCollisionShape
          mouse.1 mouse.2) := by
  obtain ⟨h1, h2⟩ := runOps_frozen_invariants (c.freeze s) ops rfl
  have hstate : ((c.freeze s).runOps ops).mState = s := h1
  refine ⟨hstate, h2, hstate, ?_⟩
  rw [update_state_unfrozen _ mouse rfl, unfreeze_mState, hstate]

/-- Claim C5 as amended: `handleEvent`, `update` and `unfreeze` only ever
change the state between adjacent states (Idle-Hover, Hover-Hit), never
directly between Idle and Hit; `freeze` is the exception the
counterexample exhibits. -/
theorem spec_C5 {T : Type} [ShapeAPI T] (c : Clickable T) (e : Event) (m : ℤ × ℤ) :
    adjacentStep c.mState (c.handleEvent e).1.mState ∧
    adjacentStep c.mState (c.update m).1.mState ∧
    (c.unfreeze).mState = c.mState := by
  refine ⟨?_, ?_, rfl⟩
  · rcases handleEvent_state_cases c e with h | ⟨h1, h2⟩ | ⟨h1, h2⟩
    · exact Or.inl h.symm
    · exact Or.inr (Or.inr (Or.inr (Or.inl ⟨h1, h2⟩)))
    · exact Or.inr (Or.inr (Or.inr (Or.inr ⟨h1, h2⟩)))
  · by_cases hf : c.mFreezed = true
    · exact Or.inl (update_state_frozen c m hf).symm
    · rw [Bool.not_eq_true] at hf
      rw [update_state_unfrozen c m hf]
      cases hs : c.mState <;>
        cases ShapeAPI.contains (c.updateShape).mCollisionShape m.1 m.2 <;>
          simp [unfrozenNextState, adjacentStep]

/-- Counterexample for C5 as stated: `freeze` is an operation of the
public interface, and `freeze(Hit)` on a freshly constructed (hence Idle)
widget moves the state directly from Idle to Hit. -/
theorem spec_C5_cex : clickC.mState = .Idle ∧ (clickC.freeze .Hit).mState = .Hit :=
  ⟨rfl, rfl⟩

/-- Claim C8: every `update` call, frozen or not, recomputes the collision
shape from the widget transform: its position becomes the widget position,
its scale the widget scale, and its origin the center of its local bounds;
when frozen, `update` does exactly that shape recomputation and nothing
else (no state change, no callback).  Stated for all three shape types the
source instantiates `Clickable` at: the circle (Knob), the rectangle
(Slider, LineEdit) and the sprite (Button). -/
theorem spec_C8 (c : Clickable CircleShape) (d : Clickable RectangleShape)
    (b : Clickable Sprite) (m : ℤ × ℤ) :
    (c.update m).1.mCollisionShape.position = c.position ∧
    (c.update m).1.mCollisionShape.scaleFactors = c.scaleFactors ∧
    (c.update m).1.mCollisionShape.origin =
      centerOriginPoint (ShapeAPI.getLocalBounds c.mCollisionShape) ∧
    (d.update m).1.mCollisionShape.position = d.position ∧
    (d.update m).1.mCollisionShape.scaleFactors = d.scaleFactors ∧
    (d.update m).1.mCollisionShape.origin =
      centerOriginPoint (ShapeAPI.getLocalBounds d.mCollisionShape) ∧
    (b.update m).1.mCollisionShape.position = b.position ∧
    (b.update m).1.mCollisionShape.scaleFactors = b.scaleFactors ∧
    (b.update m).1.mCollisionShape.origin =
      centerOriginPoint (ShapeAPI.getLocalBounds b.mCollisionShape) ∧
    (c.mFreezed = true → c.update m = (c.updateShape, [])) ∧
    (d.mFreezed = true → d.update m = (d.updateShape, [])) ∧
    (b.mFreezed = true → b.update m = (b.updateShape, [])) := by
  refine ⟨?_, ?_, ?_, ?_, ?_, ?_, ?_, ?_, ?_, fun h => update_frozen c m h,
    fun h => update_frozen d m h, fun h => update_frozen b m h⟩
  all_goals rw [update_shape_phase]
  all_goals rfl

theorem handleEvent_nonbutton {T : Type} (c : Clickable T) (e : Event)
    (he : e.isButtonEvent = false) : c.handleEvent e = (c, []) := by
  unfold Clickable.handleEvent
  split
  · rfl
  · cases e <;> simp_all [Event.isButtonEvent]

theorem knob_handleEvent_mValue (k : Knob) (e : Event) :
    ∃ v, (k.handleEvent e).1.mValue = clampValue v :=
  ⟨_, rfl⟩

theorem knob_update_mValue (k : Knob) (m : ℤ × ℤ) (out : Knob × List State)
    (h : k.update m = some out) : out.1.mValue = clampValue k.mValue := by
  unfold Knob.update Knob.textureRect at h
  dsimp only at h
  rcases htex : k.mSprite.texture with _ | ⟨w, hgt⟩ <;> rw [htex] at h
  · exact absurd h (by simp)
  · injection h with h
    rw [← h]

theorem knob_setValue_mem (k : Knob) (v : ℚ) (k' : Knob)
    (h : k.setValue v = some k') : -1 ≤ k'.mValue ∧ k'.mValue ≤ 1 := by
  unfold Knob.setValue at h
  split at h
  · next hv =>
      injection h with h
      rw [← h]
      constructor <;> [nlinarith [hv.2]; nlinarith [hv.1]]
  · exact absurd h (by simp)

theorem knob_runOp_mem (k : Knob) (op : KnobOp) (k' : Knob)
    (h : k.runOp op = some k') : -1 ≤ k'.mValue ∧ k'.mValue ≤ 1 := by
  cases op with
  | handleEvent e =>
      injection h with h
      obtain ⟨v, hv⟩ := knob_handleEvent_mValue k e
      rw [← h, hv]
      exact clampValue_mem v
  | update m =>
      rcases Option.map_eq_some'.mp h with ⟨out, hout, h1⟩
      rw [← h1, knob_update_mValue k m out hout]
      exact clampValue_mem _
  | setValue v => exact knob_setValue_mem k v k' h

theorem slider_update_mValue (s : Slider) (m : ℤ × ℤ) (out : Slider × List State)
    (h : s.update m = some out) : ∃ v, out.1.mValue = clampValue v := by
  unfold Slider.update at h
  split at h
  · dsimp only at h
    rcases htex : s.mSprite.texture with _ | ⟨w, hgt⟩ <;> rw [htex] at h
    · exact absurd h (by simp)
    · injection h with h
      exact ⟨_, by rw [← h]⟩
  · exact absurd h (by simp)

theorem slider_setValue_mValue (s : Slider) (q : ℚ) (s' : Slider)
    (h : s.setValue q = some s') : s'.mValue = q := by
  unfold Slider.setValue at h
  split at h
  · injection h with h
    rw [← h]
  · exact absurd h (by simp)

/-- Claim C1 as amended.  For every Knob object, any nonempty sequence of
`handleEvent`, `update` and `setValue` calls that completes without an
assertion failure leaves the value in [-1, 1] (the C++ constructor leaves
the value uninitialized, so the empty sequence guarantees nothing, and the
quantification over `k` covers arbitrary initial contents).  For every
Slider, the value is in [-1, 1] immediately after every successful
`update`, but `Slider::setValue` stores its argument unclamped, so a
sequence ending in an out-of-range `setValue` reports that raw argument
(the counterexample); the clamp only happens at the next `update`. -/
theorem spec_C1 :
    (∀ (k : Knob) (ops : List KnobOp) (k' : Knob), ops ≠ [] →
      Knob.runOps k ops = some k' → -1 ≤ k'.mValue ∧ k'.mValue ≤ 1) ∧
    (∀ (s : Slider) (m : ℤ × ℤ) (out : Slider × List State),
      s.update m = some out → -1 ≤ out.1.mValue ∧ out.1.mValue ≤ 1) ∧
    (∀ (s : Slider) (q : ℚ) (s' : Slider),
      s.setValue q = some s' → s'.mValue = q) := by
  refine ⟨?_, ?_, slider_setValue_mValue⟩
  · intro k ops
    induction ops generalizing k with
    | nil => intro k' hne; exact absurd rfl hne
    | cons op rest ih =>
        intro k' _ h
        rw [Knob.runOps] at h
        rcases hop : k.runOp op with _ | k1 <;> rw [hop] at h
        · exact absurd h (by simp)
        · simp only [Option.some_bind] at h
          cases rest with
          | nil =>
              rw [Knob.runOps] at h
              injection h with h
              rw [← h]
              exact knob_runOp_mem k op k1 hop
          | cons op2 rest2 => exact ih k1 k' (by simp) h
  · intro s m out h
    obtain ⟨v, hv⟩ := slider_update_mValue s m out h
    rw [hv]
    exact clampValue_mem v

/-- Counterexample for C1 as stated: on an initialized Slider the single
call sequence `setValue(2)` ends with `value()` reporting 2, which is
outside [-1, 1], because `Slider::setValue` does not clamp. -/
theorem spec_C1_cex :
    (sliderA.setValue 2).bind Slider.value = some 2 ∧ ¬ ((2 : ℚ) ≤ 1) := by
  constructor
  · rfl
  · norm_num

theorem slider_update_frozen (s : Slider) (m : ℤ × ℤ) (out : Slider × List State)
    (hinit : s.mInitialized = true) (hfr : s.click.mFreezed = true)
    (hst : s.click.mState ≠ .Hit) (h : s.update m = some out) :
    out.1.mValue = clampValue s.mValue ∧ out.1.click.mState = s.click.mState ∧
      out.1.click.mFreezed = true ∧ out.1.mInitialized = true := by
  unfold Slider.update at h
  rw [hinit] at h
  simp only [if_true] at h
  rw [update_frozen s.click m hfr] at h
  dsimp only at h
  have hms : (s.click.updateShape).mState = s.click.mState := rfl
  have hmf : (s.click.updateShape).mFreezed = true := hfr
  rcases htyp : s.mType with _ | _ <;> rw [htyp] at h <;> dsimp only at h <;>
    simp only [hms, if_neg hst] at h <;>
    rcases htex : s.mSprite.texture with _ | ⟨w, hgt⟩ <;> rw [htex] at h <;>
      dsimp only at h
  · exact absurd h (by simp)
  · injection h with h
    exact ⟨by rw [← h], by rw [← h]; exact hms, by rw [← h]; exact hmf,
      by rw [← h]⟩
  · exact absurd h (by simp)
  · injection h with h
    exact ⟨by rw [← h], by rw [← h]; exact hms, by rw [← h]; exact hmf,
      by rw [← h]⟩

theorem frozen_slider_runOps (ops : List SliderOp) :
    ∀ s s' : Slider, s.mInitialized = true → s.click.mFreezed = true →
      s.click.mState ≠ .Hit → Slider.runOps s ops = some s' →
      s'.mValue = sliderFrozenValue s.mValue ops ∧
        s'.click.mState = s.click.mState := by
  induction ops with
  | nil =>
      intro s s' _ _ _ h
      injection h with h
      rw [← h]
      exact ⟨rfl, rfl⟩
  | cons op rest ih =>
      intro s s' hinit hfr hst h
      rw [Slider.runOps] at h
      rcases hop : s.runOp op with _ | s1 <;> rw [hop] at h
      · exact absurd h (by simp)
      · simp only [Option.some_bind] at h
        cases op with
        | update m =>
            rcases Option.map_eq_some'.mp hop with ⟨out, hout, h1⟩
            obtain ⟨hv, hsame, hfr1, hinit1⟩ :=
              slider_update_frozen s m out hinit hfr hst hout
            subst h1
            obtain ⟨ih1, ih2⟩ :=
              ih out.1 s' hinit1 hfr1 (by rw [hsame]; exact hst) h
            exact ⟨by rw [ih1, hv, sliderFrozenValue], by rw [ih2, hsame]⟩
        | setValue q =>
            have hq : s.setValue q = some s1 := hop
            unfold Slider.setValue at hq
            rw [hinit] at hq
            simp only [if_true] at hq
            injection hq with hq
            subst hq
            obtain ⟨ih1, ih2⟩ :=
              ih ⟨s.click, true, q, s.mSprite, s.mType⟩ s' rfl hfr hst h
            refine ⟨?_, ih2⟩
            rw [sliderFrozenValue]
            exact ih1

/-- Claim C4 as amended.  For a Slider frozen in a state other than Hit,
over any interleaving of `update` calls (with arbitrary pointer positions)
and external `setValue` calls, the value is exactly the fold
`sliderFrozenValue`: the most recent `setValue` argument, clamped to
[-1, 1] once an `update` has followed it (and still raw before one), and
the pointer never influences it; the reported state never moves.  The
claim as stated fails for `freeze(Hit)`: `Slider::update` tests
`state() == Hit` and not the freeze flag, so a slider frozen in Hit keeps
tracking the pointer (the counterexample). -/
theorem spec_C4 (s : Slider) (ops : List SliderOp) (hinit : s.mInitialized = true)
    (hfr : s.click.mFreezed = true) (hst : s.click.mState ≠ .Hit) :
    FrozenSliderSpec s ops :=
  fun s' h => frozen_slider_runOps ops s s' hinit hfr hst h

/-- Sanity computation for the frozen progress-bar scenario: the concrete
slider frozen in Idle, after `setValue(0.3)` and one update with the
pointer far away, reports exactly 0.3. -/
theorem sliderW_run_value :
    (Slider.runOps sliderW [.setValue (3 / 10), .update (50, 0)]).bind Slider.value
      = some (3 / 10) := by
  have hne : (State.Idle = State.Hit) = False := by simp
  norm_num [hne, Slider.runOps, Slider.runOp, Slider.setValue, Slider.update, Slider.value,
    Slider.freeze, Slider.construct, sliderW, sliderA, rectB, spriteB, Sprite.default,
    Clickable.construct, Clickable.update, Clickable.updateShape, Clickable.freeze,
    centerOrigin, centerOriginPoint, floatToUnsigned, clampValue, frameCountMinusOne,
    roundHalfAway, min_def, max_def, Option.some_bind, Option.map,
    instShapeAPIRectangleShape, instShapeAPISprite, ShapeAPI.setPosition,
    ShapeAPI.setScale, ShapeAPI.setOrigin, ShapeAPI.getLocalBounds]

/-- Witness for C4: a concrete slider frozen in Idle, driven by a
`setValue(0.3)` followed by an update with the pointer far away. -/
theorem spec_C4_witness :
    FrozenSliderSpec sliderW [.setValue (3 / 10), .update (50, 0)] :=
  spec_C4 sliderW [.setValue (3 / 10), .update (50, 0)] rfl rfl (by decide)

/-- Counterexample for C4 as stated: the same concrete slider frozen in
Hit (`freeze` accepts any state argument), after `setValue(0.3)` and one
update with the pointer at x = 100, reports 1 (the clamped
pointer-derived value), not the most recent `setValue` argument 0.3. -/
theorem spec_C4_cex :
    (Slider.runOps sliderF [.setValue (3 / 10), .update (100, 0)]).bind Slider.value
        = some 1 ∧
      (1 : ℚ) ≠ 3 / 10 ∧ clampValue (3 / 10) = 3 / 10 := by
  refine ⟨?_, by norm_num, by norm_num [clampValue, min_def, max_def]⟩
  norm_num [Slider.runOps, Slider.runOp, Slider.setValue, Slider.update, Slider.value,
    Slider.freeze, Slider.construct, sliderF, sliderA, rectB, spriteB, Sprite.default,
    Clickable.construct, Clickable.update, Clickable.updateShape, Clickable.freeze,
    centerOrigin, centerOriginPoint, floatToUnsigned, clampValue, frameCountMinusOne,
    roundHalfAway, min_def, max_def, Option.some_bind, Option.map,
    instShapeAPIRectangleShape, instShapeAPISprite, ShapeAPI.setPosition,
    ShapeAPI.setScale, ShapeAPI.setOrigin, ShapeAPI.getLocalBounds]

/-- Claim C6 as amended.  For an initialized LineEdit in the Hover state:
a text-input event appends its code point exactly when
`static_cast<char>(code)` is at least 32, which for the 8-bit signed
`char` of the embedding means `code mod 256` lies in [32, 127] — so code
points at or above 32 whose low byte falls outside that range (such as
128512) are dropped, refuting the claim as stated; a backspace key event
removes the last character when the buffer is nonempty and is a no-op on
an empty buffer; and the concrete H-i-backspace scenario holds since the
ASCII codes 72 and 105 pass the signed-char test. -/
theorem spec_C6 (le : LineEdit) (u : ℕ) (a b : ℚ) :
    (le.mInitialized = true → le.click.mState = .Hover →
      (le.handleEvent (.TextEntered u a)).map (fun p => p.1.mText) =
        some (if 32 ≤ toSignedChar u then le.mText ++ [u] else le.mText)) ∧
    (32 ≤ toSignedChar u ↔ 32 ≤ u % 256 ∧ u % 256 ≤ 127) ∧
    (le.mInitialized = true → le.click.mState = .Hover → le.mText ≠ [] →
      (le.handleEvent (.KeyPressed .Backspace b)).map (fun p => p.1.mText) =
        some le.mText.dropLast) ∧
    (le.mInitialized = true → le.click.mState = .Hover → le.mText = [] →
      (le.handleEvent (.KeyPressed .Backspace b)).map (fun p => p.1.mText) =
        some []) ∧
    ((lineEditHover.handleEvent (.TextEntered 72 0)).bind
        (fun p => p.1.handleEvent (.TextEntered 105 0))).map (fun p => p.1.mText) =
      some [72, 105] ∧
    (((lineEditHover.handleEvent (.TextEntered 72 0)).bind
        (fun p => p.1.handleEvent (.TextEntered 105 0))).bind
          (fun p => p.1.handleEvent (.KeyPressed .Backspace 0))).map
        (fun p => p.1.mText) = some [72] := by
  have hdel : ∀ (c : Clickable RectangleShape),
      c.handleEvent (.TextEntered u a) = (c, []) :=
    fun c => handleEvent_nonbutton c _ rfl
  have hdel2 : ∀ (c : Clickable RectangleShape),
      c.handleEvent (.KeyPressed .Backspace b) = (c, []) :=
    fun c => handleEvent_nonbutton c _ rfl
  refine ⟨?_, ?_, ?_, ?_, by decide, by decide⟩
  · intro hinit hst
    simp only [LineEdit.handleEvent, hinit, if_true, hdel le.click, hst]
    split
    · simp_all
    · next hlt =>
        rw [if_neg (fun hc => hlt ⟨trivial, hc⟩)]
        simp
  · unfold toSignedChar
    split <;> omega
  · intro hinit hst hne
    have hlen : le.mText.length > 0 := List.length_pos.mpr hne
    simp [LineEdit.handleEvent, hinit, hdel2 le.click, hst, hlen]
  · intro hinit hst hemp
    simp [LineEdit.handleEvent, hinit, hdel2 le.click, hst, hemp]

/-- Counterexample for C6 as stated: the code point 128512 is at least 32,
yet feeding it to a hovered LineEdit with an empty buffer appends nothing,
because `static_cast<char>(128512)` is 0, which fails the `>= 32` test. -/
theorem spec_C6_cex :
    (lineEditHover.handleEvent (.TextEntered 128512 0)).map (fun p => p.1.mText) =
        some [] ∧
      32 ≤ 128512 := by
  exact ⟨by decide, by norm_num⟩

/-- Claim C7 as amended.  On a default-constructed placeholder, every
Slider operation that touches the widget data asserts (`update`, `value`,
`setValue`, `draw`), as does every such LineEdit operation
(`handleEvent`, `update`, `setString`, `string`, `draw`); but the
operations inherited unchanged from the state machine do not assert —
in particular `Slider::handleEvent` on a placeholder returns normally,
refuting the claim as stated.  `Knob::setValue` asserts exactly for
arguments outside [0, 1], and `Knob::textureRect` asserts exactly when no
texture is bound to the sprite. -/
theorem spec_C7 :
    (∀ s : Slider, s.mInitialized = false →
      (∀ m, s.update m = none) ∧ s.value = none ∧
        (∀ q, s.setValue q = none) ∧ s.draw = none) ∧
    (∀ le : LineEdit, le.mInitialized = false →
      (∀ e, le.handleEvent e = none) ∧ (∀ m, le.update m = none) ∧
        (∀ t, le.setString t = none) ∧ le.string = none ∧ le.draw = none) ∧
    (∀ (k : Knob) (v : ℚ), k.setValue v = none ↔ ¬ (v ≤ 1 ∧ 0 ≤ v)) ∧
    (∀ k : Knob, k.textureRect = none ↔ k.mSprite.texture = none) := by
  refine ⟨?_, ?_, ?_, ?_⟩
  · intro s hs
    refine ⟨fun m => ?_, ?_, fun q => ?_, ?_⟩ <;>
      simp [Slider.update, Slider.value, Slider.setValue, Slider.draw, hs]
  · intro le hle
    refine ⟨fun e => ?_, fun m => ?_, fun t => ?_, ?_, ?_⟩ <;>
      simp [LineEdit.handleEvent, LineEdit.update, LineEdit.setString,
        LineEdit.string, LineEdit.draw, hle]
  · intro k v
    unfold Knob.setValue
    split <;> simp_all
  · intro k
    unfold Knob.textureRect
    rcases htex : k.mSprite.texture with _ | ⟨w, hgt⟩ <;> simp [htex]

/-- Counterexample for C7 as stated: `handleEvent` is an operation of a
default-constructed placeholder Slider (inherited from the state machine)
and it completes without any assertion. -/
theorem spec_C7_cex :
    (Slider.runCall (Slider.constructDefault 0 .Horizontal)
        (.handleEvent (.MouseButtonPressed .Left 0))).isSome = true := by
  decide

theorem frameCountMinusOne_eq (w N : ℕ) (hw : 0 < w) (hN : 0 < N)
    (hlt : N < 2 ^ 32) : frameCountMinusOne w (N * w) = N - 1 := by
  unfold frameCountMinusOne
  rw [Nat.mul_div_cancel _ hw]
  omega

/-- Claim C9: for a Knob or Slider whose spritesheet texture is a single
column of N square frames of side w (size w by N*w), the texture rectangle
selected by `update` is the w-by-w frame whose top offset is
`round((N-1) * (value+1)/2) * w`, where `value` is the (clamped)
post-update value; anchored by a concrete 3-frame knob at value 0
selecting frame 1. -/
theorem spec_C9 :
    (∀ (k : Knob) (m : ℤ × ℤ) (w N : ℕ) (out : Knob × List State),
      k.mSprite.texture = some (w, N * w) → 0 < w → 0 < N → N < 2 ^ 32 →
      k.update m = some out →
      out.1.mValue = clampValue k.mValue ∧
        out.1.mSprite.textureRect =
          ⟨0, roundHalfAway (((N : ℚ) - 1) * (out.1.mValue + 1) / 2) * (w : ℤ),
            (w : ℤ), (w : ℤ)⟩) ∧
    (∀ (s : Slider) (m : ℤ × ℤ) (w N : ℕ) (out : Slider × List State),
      s.mSprite.texture = some (w, N * w) → 0 < w → 0 < N → N < 2 ^ 32 →
      s.update m = some out →
      out.1.mSprite.textureRect =
        ⟨0, roundHalfAway (((N : ℚ) - 1) * (out.1.mValue + 1) / 2) * (w : ℤ),
          (w : ℤ), (w : ℤ)⟩) ∧
    (knobEx.update (0, 0)).map (fun p => p.1.mSprite.textureRect) =
      some ⟨0, 4, 4, 4⟩ := by
  have hanchor : (knobEx.update (0, 0)).map (fun p => p.1.mSprite.textureRect) =
      some ⟨0, 4, 4, 4⟩ := by
    norm_num [Knob.update, Knob.textureRect, knobEx, Knob.construct, Clickable.construct,
      Clickable.update, Clickable.updateShape, centerOrigin, centerOriginPoint,
      floatToUnsigned, clampValue, frameCountMinusOne, roundHalfAway, min_def, max_def,
      Sprite.default, circA, Option.map, instShapeAPICircleShape, instShapeAPISprite,
      ShapeAPI.setPosition, ShapeAPI.setScale, ShapeAPI.setOrigin, ShapeAPI.getLocalBounds,
      ShapeAPI.contains, CircleShape.containsPoint]
  have hcast : ∀ N : ℕ, 0 < N → ((N - 1 : ℕ) : ℚ) = (N : ℚ) - 1 := by
    intro N hN
    push_cast [Nat.cast_sub hN]
    ring
  refine ⟨?_, ?_, hanchor⟩
  · intro k m w N out htex hw hN hlt hupd
    unfold Knob.update Knob.textureRect at hupd
    dsimp only at hupd
    rw [htex] at hupd
    injection hupd with hupd
    rw [← hupd]
    refine ⟨rfl, ?_⟩
    show (⟨0, roundHalfAway (((frameCountMinusOne w (N * w) : ℕ) : ℚ) *
        (clampValue k.mValue + 1) / 2) * (w : ℤ), (w : ℤ), (w : ℤ)⟩ : IntRect) = _
    rw [frameCountMinusOne_eq w N hw hN hlt, hcast N hN]
  · intro s m w N out htex hw hN hlt hupd
    unfold Slider.update at hupd
    split at hupd
    · dsimp only at hupd
      rw [htex] at hupd
      injection hupd with hupd
      rw [← hupd]
      show (⟨0, roundHalfAway (((frameCountMinusOne w (N * w) : ℕ) : ℚ) * _ / 2) *
          (w : ℤ), (w : ℤ), (w : ℤ)⟩ : IntRect) = _
      rw [frameCountMinusOne_eq w N hw hN hlt, hcast N hN]
    · exact absurd hupd (by simp)

/-- Claim C10: the circular containment test agrees with the strict
Euclidean-distance comparison against the unscaled radius, it is invariant
under any scale (and origin) change such as the ones `update` applies each
frame, and the rectangular global-bounds test is not: a concrete point
outside a 10-by-10 rectangle enters it once the shape is scaled by 2. -/
theorem spec_C10 :
    (∀ (shape : CircleShape) (px py : ℤ),
      ShapeAPI.contains shape px py = true ↔
        Real.sqrt (((((px : ℚ) - shape.position.x : ℚ)) : ℝ) ^ 2 +
            ((((py : ℚ) - shape.position.y : ℚ)) : ℝ) ^ 2) <
          ((shape.mRadius : ℚ) : ℝ)) ∧
    (∀ (shape : CircleShape) (sc : Vec2) (px py : ℤ),
      ShapeAPI.contains (ShapeAPI.setScale shape sc) px py =
        ShapeAPI.contains shape px py) ∧
    (∀ (shape : CircleShape) (o : Vec2) (px py : ℤ),
      ShapeAPI.contains (ShapeAPI.setOrigin shape o) px py =
        ShapeAPI.contains shape px py) ∧
    (ShapeAPI.contains rectB 15 5 = false ∧
      ShapeAPI.contains (ShapeAPI.setScale rectB ⟨2, 1⟩) 15 5 = true) := by
  have houtside : ShapeAPI.contains rectB 15 5 = false := by
    norm_num [ShapeAPI.contains, instShapeAPIRectangleShape, rectB, transformBounds,
      transformPoint, FloatRect.containsPoint, ShapeAPI.getGlobalBounds, min_def, max_def]
  have hinside : ShapeAPI.contains (ShapeAPI.setScale rectB ⟨2, 1⟩) 15 5 = true := by
    norm_num [ShapeAPI.contains, ShapeAPI.setScale, instShapeAPIRectangleShape, rectB,
      transformBounds, transformPoint, FloatRect.containsPoint, ShapeAPI.getGlobalBounds,
      min_def, max_def]
  refine ⟨?_, fun shape sc px py => rfl, fun shape o px py => rfl, houtside, hinside⟩
  intro shape px py
  show CircleShape.containsPoint shape px py = true ↔ _
  unfold CircleShape.containsPoint
  rw [Bool.and_eq_true, decide_eq_true_eq, decide_eq_true_eq]
  constructor
  · rintro ⟨h1, h2⟩
    have hrR : (0 : ℝ) < ((shape.mRadius : ℚ) : ℝ) := by exact_mod_cast h1
    rw [Real.sqrt_lt' hrR]
    push_cast
    exact_mod_cast h2
  · intro h
    have hrR : (0 : ℝ) < ((shape.mRadius : ℚ) : ℝ) :=
      lt_of_le_of_lt (Real.sqrt_nonneg _) h
    rw [Real.sqrt_lt' hrR] at h
    refine ⟨by exact_mod_cast hrR, ?_⟩
    exact_mod_cast h

end SSGui
